import Mathlib

/-!
Verification of the NL2SQL schema-retrieval-and-query pipeline implemented in
`src/core/free_chat.py` (classes `PGManager`, `VectorStore`, `LLMProvider`,
`NL2SQLPipeline`).

Modelling conventions for this shallow embedding:

* External collaborators (the chat-completion API, the embedding API,
  sklearn's `cosine_similarity` kernel, the PostgreSQL server) are oracle
  fields of an `Env` record.  A raised Python exception from an oracle is an
  `PyResult.exn`; a Python function that catches exceptions is a Lean `match`
  on that value.
* Python functions that can raise return `PyResult α`; functions that catch
  every exception (such as `execute_sql`) return plain values.
* `np.argsort` is modelled as the stable ascending index sort, i.e. sorting
  the indices by the key (value, index) lexicographically; the Python slice
  `a[-k:]` is modelled including its `k = 0` corner case (`a[-0:]` is the
  whole list).
* Wall-clock samples (`time.time()`) are drawn from an abstract integer clock
  `Nat → Int` indexed by call order; only the arithmetic structure of the
  recorded durations matters to the claims.
* Python `dict`s appearing in responses are modelled as records whose
  optional keys become `Option` fields: `none` means the key is absent.
* String manipulation (`strip`, `startswith`, `replace`, `split`, `join`)
  is re-implemented over `List Char` with Python's semantics (ASCII
  whitespace set) so that every definition evaluates by kernel reduction.
-/

/-- Runtime values appearing in database result rows (`Dict[str, Any]`). -/
inductive PyVal where
  | int (n : Int)
  | str (s : String)
  | bool (b : Bool)
  | none
deriving DecidableEq

/-- Python `type(value).__name__` for the modelled value universe. -/
def pyTypeName : PyVal → String
  | .int _ => "int"
  | .str _ => "str"
  | .bool _ => "bool"
  | .none => "NoneType"

/-- The verbatim textual form of a runtime value (`str(value)`), used to ask
whether a cell value occurs inside a serialized summary. -/
def pyRender : PyVal → String
  | .int n => toString n
  | .str s => s
  | .bool b => if b then "True" else "False"
  | .none => "None"

/-- One result row: an insertion-ordered association list, as a `DictRow`. -/
abbrev Row := List (String × PyVal)

/-- Result of a Python computation that may raise: `ok` is a normal return,
`exn` carries the exception text. -/
inductive PyResult (α : Type) where
  | ok (a : α)
  | exn (msg : String)
deriving DecidableEq

/-- Sequencing of Python computations: an exception propagates. -/
def PyResult.bind (r : PyResult α) (f : α → PyResult β) : PyResult β :=
  match r with
  | .ok a => f a
  | .exn m => .exn m

instance : Monad PyResult where
  pure := PyResult.ok
  bind := PyResult.bind

/-- Whether a `PyResult` is a normal (non-raising) return. -/
def PyResult.isOk : PyResult α → Bool
  | .ok _ => true
  | .exn _ => false

/-- Map over the normal return of a `PyResult`. -/
def PyResult.map (f : α → β) : PyResult α → PyResult β
  | .ok a => .ok (f a)
  | .exn m => .exn m

/-- The dataclass `TableSchema` of `free_chat.py`. -/
structure TableSchema where
  name : String
  ddl : String
  description : String
deriving DecidableEq

/-- The dataclass `QueryResult` of `free_chat.py`. -/
structure QueryResult where
  success : Bool
  data : List Row
  sql : String
  error : Option String
deriving DecidableEq

/-- Behaviour of the PostgreSQL server on one statement, as observed through
the `psycopg2` cursor inside `PGManager.execute_sql`: a result descriptor
with rows (`cursor.description` non-null), a write acknowledgement
(`cursor.description` null), or a raised backend error. -/
inductive DbOutcome where
  | rows (data : List Row)
  | writeAck
  | err (msg : String)
deriving DecidableEq

/-- Transaction disposition of the connection used by `execute_sql`:
psycopg2's `with connection` block commits on clean exit and rolls back when
the body raises; the write branch additionally commits explicitly. -/
inductive StoreEffect where
  | committed
  | rolledBack
deriving DecidableEq

/-- One row of the `information_schema.columns` query issued by
`PGManager.get_all_schemas`: (column_name, data_type, is_nullable,
column_default, column_comment). -/
structure RawColumn where
  name : String
  dataType : String
  isNullable : String
  default : Option String
  comment : Option String
deriving DecidableEq

/-- External collaborators of the pipeline, as oracles.  Each field models
one third-party service exactly at the boundary where `free_chat.py` calls
it. -/
structure Env where
  /-- One `client.chat.completions.create` call inside `LLMProvider._call_llm`
  (prompt, model): `ok` is the extracted `response.choices[0].message.content
  or ""`, `exn` is a raised API error. -/
  chatApi : String → String → PyResult String
  /-- One `client.embeddings.create` call inside `VectorStore.get_embeddings`
  for a batch of input strings: the code always passes a single-element
  batch.  `ok` is the list of returned vectors (`response.data`). -/
  embedApi : List String → PyResult (List (List ℚ))
  /-- The numeric kernel of sklearn's `cosine_similarity` for one pair of
  vectors; only the induced ordering matters to the pipeline. -/
  cosine : List ℚ → List ℚ → ℚ
  /-- The PostgreSQL server's observable behaviour on one SQL string. -/
  dbExec : String → DbOutcome
  /-- `PGManager._init_database` (schema bootstrap); its failure is re-raised. -/
  dbInit : PyResult Unit
  /-- `VectorStore.__init__` client construction; its failure is re-raised. -/
  vsClientInit : PyResult Unit
  /-- `LLMProvider.__init__` (API key lookup, client construction). -/
  llmInit : PyResult Unit
  /-- The metadata queries of `PGManager.get_all_schemas`: the list of base
  tables, each with its ordered `information_schema.columns` rows.  `exn`
  models any metadata-query error. -/
  catalog : PyResult (List (String × List RawColumn))

/-- In-memory state of `VectorStore`: the cached schema list and the cached
embedding matrix (`None` until built). -/
structure VSState where
  schemas : List TableSchema
  schema_embeddings : Option (List (List ℚ))
deriving DecidableEq

/-- State owned by a constructed `NL2SQLPipeline`. -/
structure PipelineState where
  vs : VSState
deriving DecidableEq

/-- Python ASCII whitespace recognised by `str.strip()`. -/
def isPySpace (c : Char) : Bool :=
  c = ' ' || c = '\t' || c = '\n' || c = '\r' || c = '\x0b' || c = '\x0c'

/-- Python `str.strip()` (ASCII whitespace). -/
def pyStrip (s : String) : String :=
  ⟨(s.data.dropWhile isPySpace).reverse.dropWhile isPySpace |>.reverse⟩

/-- Python `str.startswith(prefix)`. -/
def pyStartsWith (s pre : String) : Bool :=
  List.isPrefixOf pre.data s.data

/-- Replace every occurrence of a non-empty pattern, scanning left to right
(Python `str.replace`); the fuel argument is the remaining input length. -/
def replaceFuel (pat rep : List Char) : Nat → List Char → List Char
  | 0, l => l
  | _ + 1, [] => []
  | n + 1, c :: cs =>
    if List.isPrefixOf pat (c :: cs) then
      rep ++ replaceFuel pat rep n ((c :: cs).drop pat.length)
    else
      c :: replaceFuel pat rep n cs

/-- Python `str.replace(pat, rep)` for a non-empty pattern. -/
def pyReplace (s pat rep : String) : String :=
  if pat.data = [] then s
  else ⟨replaceFuel pat.data rep.data s.data.length s.data⟩

/-- Split a character list on a separator character (Python `str.split(sep)`
with a single-character separator, keeping empty pieces). -/
def splitOnCharAux (sep : Char) : List Char → List Char → List (List Char)
  | acc, [] => [acc.reverse]
  | acc, c :: cs =>
    if c = sep then acc.reverse :: splitOnCharAux sep [] cs
    else splitOnCharAux sep (c :: acc) cs

/-- Python `str.split('\n')`. -/
def pySplitLines (s : String) : List String :=
  (splitOnCharAux '\n' [] s.data).map fun l => ⟨l⟩

/-- Python `sep.join(parts)`. -/
def pyJoin (sep : String) : List String → String
  | [] => ""
  | p :: ps => ps.foldl (fun acc q => acc ++ sep ++ q) p

/-- Lexicographic code-point comparison of strings, Python `<=` on `str`. -/
def chLE : List Char → List Char → Bool
  | [], _ => true
  | _ :: _, [] => false
  | a :: as, b :: bs =>
    if a.val < b.val then true
    else if b.val < a.val then false
    else chLE as bs

/-- Python string ordering used by `sorted(...)` on column names. -/
def strLeProp (a b : String) : Prop := chLE a.data b.data = true

instance : DecidableRel strLeProp := fun a b => by
  unfold strLeProp; infer_instance

/-- Hexadecimal digit for the `\u00XX` escapes of `json.dumps`. -/
def hexDigit (n : Nat) : Char :=
  if n < 10 then Char.ofNat (48 + n) else Char.ofNat (87 + n)

/-- Escaping performed by `json.dumps` with `ensure_ascii=False` on one
character. -/
def jsonEscapeChar (c : Char) : List Char :=
  if c = '"' then ['\\', '"']
  else if c = '\\' then ['\\', '\\']
  else if c = '\n' then ['\\', 'n']
  else if c = '\t' then ['\\', 't']
  else if c = '\r' then ['\\', 'r']
  else if c.val < 32 then
    ['\\', 'u', '0', '0', hexDigit (c.val.toNat / 16), hexDigit (c.val.toNat % 16)]
  else [c]

/-- String escaping of `json.dumps(..., ensure_ascii=False)`. -/
def jsonEscape (s : String) : String :=
  ⟨s.data.flatMap jsonEscapeChar⟩

/-- Description dictionary hard-coded in `PGManager.get_all_schemas`
(`descriptions.get(table, '')`). -/
def tableDescription (t : String) : String :=
  if t = "students" then
    "学生基本信息表，包含姓名、年级、出生日期、性别、地区、教材版本和学校等信息。"
  else if t = "original_input" then
    "原始输入数据表，存储学生的原始学习材料，如图片、文档等。"
  else if t = "study_detail" then
    "学习明细表(存储学生错题记录,包含字段:details->>error_type标识错误类型)"
  else if t = "summary" then
    "学情汇总表，按时间段记录学生的学科优势和弱点分析。"
  else ""

/-- One column line of the hand-built DDL in `PGManager.get_all_schemas`:
name and type, `NOT NULL` when `is_nullable = 'NO'`, a `DEFAULT` clause when
the default is truthy, and a trailing comment when present and truthy. -/
def renderColumn (c : RawColumn) : String :=
  "  " ++ c.name ++ " " ++ c.dataType
    ++ (if c.isNullable = "NO" then " NOT NULL" else "")
    ++ (match c.default with
        | some d => if d = "" then "" else " DEFAULT " ++ d
        | none => "")
    ++ (match c.comment with
        | some m => if m = "" then "" else "  -- " ++ m
        | none => "")

/-- The `CREATE TABLE` text block assembled by `PGManager.get_all_schemas`. -/
def renderDDL (table : String) (cols : List RawColumn) : String :=
  pyJoin "\n" (("CREATE TABLE " ++ table ++ " (") :: cols.map renderColumn ++ [");"])

/-- `PGManager.get_all_schemas`: renders a `TableSchema` per base table; any
metadata-query error is caught, logged, and turned into an empty list. -/
def get_all_schemas (env : Env) : List TableSchema :=
  match env.catalog with
  | .exn _ => []
  | .ok tables =>
      tables.map fun tc =>
        { name := tc.1, ddl := renderDDL tc.1 tc.2, description := tableDescription tc.1 }

/-- `PGManager.execute_sql`: never raises.  Reads return their rows, writes
are committed with empty data, any raised error is caught and reported in a
failed `QueryResult` while the `with connection` block rolls back. -/
def execute_sql (env : Env) (sql : String) : QueryResult × StoreEffect :=
  match env.dbExec sql with
  | .rows data => ({ success := true, data := data, sql := sql, error := none }, .committed)
  | .writeAck => ({ success := true, data := [], sql := sql, error := none }, .committed)
  | .err msg => ({ success := false, data := [], sql := sql, error := some msg }, .rolledBack)

/-- `LLMProvider._call_llm`: the underlying API call is wrapped in
`try/except`; a raised error is caught and replaced by the string
`"Error: LLM call failed. <e>"`. -/
def call_llm (env : Env) (prompt model : String) : String :=
  match env.chatApi prompt model with
  | .ok content => content
  | .exn e => "Error: LLM call failed. " ++ e

/-- `LLMProvider.generate_sql`: calls the model, strips markdown code
fences, and trims whitespace. -/
def generate_sql (env : Env) (prompt : String) : String :=
  pyStrip (pyReplace (pyReplace (call_llm env prompt "qwen-plus") "```sql" "") "```" "")

/-- `LLMProvider.generate_answer`: calls the model and trims whitespace. -/
def generate_answer (env : Env) (prompt : String) : String :=
  pyStrip (call_llm env prompt "qwen-plus")

/-- The dimension-analysis prompt built inside
`VectorStore.multi_path_retrieve_schemas`. -/
def mkAnalysisPrompt (question : String) : String :=
  "\n分析这个教学查询需要哪些数据维度，输出2-3个具体的查询方向。\n每个方向要使用最直接、简洁的关键词，便于匹配数据表名称。\n\n查询: "
    ++ question
    ++ "\n\n输出格式，每行一个维度：\nstudents\nstudy_detail\nsummary\noriginal_input\n"

/-- The SQL-generation prompt template of `CONFIG`, rendered with
`schema_context` and `question`. -/
def mkSqlPrompt (schemaContext question : String) : String :=
  "\n你是一位PostgreSQL数据库专家。根据给定的数据库模式和自然语言问题，生成准确且可执行的SQL查询。\n\n**重要约束**：\n1. 只能使用提供的数据库模式中明确存在的表和字段\n2. 如果问题要求的数据在给定的DDL中不存在，必须拒绝生成SQL\n3. 拒绝时返回：SCHEMA_INSUFFICIENT: [具体说明缺少什么数据]\n4. PostgreSQL特有语法：使用ILIKE代替LIKE进行不区分大小写的匹配\n\n### 数据库模式:\n"
    ++ schemaContext
    ++ "\n\n### 问题:\n"
    ++ question
    ++ "\n\n### 要求:\n- 如果所需字段都存在：返回纯SQL语句，不要有任何解释或markdown格式\n- 如果缺少必要字段：返回 SCHEMA_INSUFFICIENT: [说明原因]\n\nSQL:\n"

/-- The answer-generation prompt template of `CONFIG`, rendered with
`question`, `sql_query` and `data_summary`. -/
def mkAnswerPrompt (question sqlQuery dataSummary : String) : String :=
  "\n你是一位专业的教学数据分析师。基于用户的问题、SQL查询和数据结构摘要，提供有价值的分析回答。\n\n注意：出于数据安全考虑，你收到的是数据结构摘要而非实际数据值。请基于查询逻辑和数据结构提供专业分析。\n\n### 用户问题:\n"
    ++ question
    ++ "\n\n### 执行的SQL查询:\n"
    ++ sqlQuery
    ++ "\n\n### 数据结构摘要:\n"
    ++ dataSummary
    ++ "\n\n### 分析要求:\n1. 基于SQL查询逻辑分析教学问题\n2. 解释查询涉及的教学指标和关系\n3. 根据数据结构提供合理的教学洞察\n4. 提供数据驱动的教学建议（如适用）\n\n### 专业分析:\n"

/-- Dimension parsing in `multi_path_retrieve_schemas`: split the raw model
output on line breaks, trim each line, and drop the empty ones. -/
def parseDimensions (text : String) : List String :=
  ((pySplitLines text).map pyStrip).filter fun d => d ≠ ""

/-- Loop body of `VectorStore.get_embeddings`: one `embeddings.create` call
per input text (a single-element batch each time), taking
`response.data[0].embedding`; returns both the result (first raised error
wins) and the trace of API-call input batches actually issued. -/
def getEmbeddingsAux (env : Env) : List String → PyResult (List (List ℚ)) × List (List String)
  | [] => (.ok [], [])
  | t :: ts =>
    match env.embedApi [t] with
    | .exn e => (.exn e, [[t]])
    | .ok [] => (.exn "IndexError: list index out of range", [[t]])
    | .ok (v :: _) =>
      let (r, calls) := getEmbeddingsAux env ts
      (match r with
       | .exn e => .exn e
       | .ok vs => .ok (v :: vs), [t] :: calls)

/-- `VectorStore.get_embeddings` (value part): failures are logged and
re-raised. -/
def get_embeddings (env : Env) (texts : List String) : PyResult (List (List ℚ)) :=
  (getEmbeddingsAux env texts).1

/-- The embedding-service calls issued by `VectorStore.get_embeddings`, each
element being the input batch of one call. -/
def getEmbeddingsCalls (env : Env) (texts : List String) : List (List String) :=
  (getEmbeddingsAux env texts).2

/-- The document string built per schema in `VectorStore.build_embeddings`. -/
def schemaDoc (s : TableSchema) : String :=
  "Table: " ++ s.name ++ "\nDescription: " ++ s.description ++ "\nDDL: " ++ s.ddl

/-- `VectorStore.build_embeddings`: stores the schema list, returns early on
an empty list (embeddings unchanged), otherwise embeds the per-schema
documents and stores the vectors; also exposes the embedding-service call
trace. -/
def build_embeddings (env : Env) (vs : VSState) (schemas : List TableSchema) :
    PyResult VSState × List (List String) :=
  match schemas with
  | [] => (.ok { vs with schemas := [] }, [])
  | _ =>
    let docs := schemas.map schemaDoc
    match getEmbeddingsAux env docs with
    | (.exn e, calls) => (.exn e, calls)
    | (.ok vecs, calls) =>
      (.ok { schemas := schemas, schema_embeddings := some vecs }, calls)

/-- Key ordering of the stable ascending index sort modelling `np.argsort`:
index `i` precedes index `j` when its similarity is smaller, or on a tie when
`i` comes first in the original order. -/
def argsortRel (sims : List ℚ) (i j : Nat) : Prop :=
  sims.getD i 0 < sims.getD j 0 ∨ (sims.getD i 0 = sims.getD j 0 ∧ i ≤ j)

instance (sims : List ℚ) : DecidableRel (argsortRel sims) := fun i j => by
  unfold argsortRel; infer_instance

/-- `np.argsort(sims)`: the permutation of `0 .. n-1` listing indices by
ascending similarity, ties in original order. -/
def argsort (sims : List ℚ) : List Nat :=
  List.insertionSort (argsortRel sims) (List.range sims.length)

/-- Python slice `a[-k:]`, including the `k = 0` corner case where `a[-0:]`
is the whole list. -/
def negSlice (l : List α) (k : Nat) : List α :=
  if k = 0 then l else l.drop (l.length - k)

/-- The index selection `np.argsort(similarities)[-k:][::-1]` shared by both
retrieval paths. -/
def topIndices (sims : List ℚ) (k : Nat) : List Nat :=
  (negSlice (argsort sims) k).reverse

/-- Python list indexing `l[i]`: raises `IndexError` when out of range. -/
def listAt (l : List α) (i : Nat) : PyResult α :=
  match l.get? i with
  | some a => .ok a
  | none => .exn "IndexError: list index out of range"

/-- The list comprehension `[self.schemas[i] for i in top_indices]`: index
each position in order, raising on the first out-of-range index. -/
def pyMapIndex (schemas : List TableSchema) : List Nat → PyResult (List TableSchema)
  | [] => .ok []
  | i :: is => do
    let s ← listAt schemas i
    let rest ← pyMapIndex schemas is
    pure (s :: rest)

/-- `VectorStore.retrieve_relevant_schemas`: guarded single-path retrieval.
Returns `[]` when the index is unbuilt or the schema list is empty;
otherwise embeds the question, ranks all schemas by cosine similarity, and
returns the top `min(top_k, len(schemas))`. -/
def retrieve_relevant_schemas (env : Env) (vs : VSState) (question : String)
    (topK : Nat) : PyResult (List TableSchema) :=
  match vs.schema_embeddings, vs.schemas with
  | none, _ => .ok []
  | some _, [] => .ok []
  | some em, s :: ss => do
    let vecs ← get_embeddings env [question]
    let q ← listAt vecs 0
    let sims := em.map (env.cosine q)
    pyMapIndex (s :: ss) (topIndices sims (min topK (s :: ss).length))

/-- Per-dimension work of `multi_path_retrieve_schemas` up to index
selection: embed the dimension, compute similarities against the stored
matrix (raising when it is `None`, exactly as `cosine_similarity` does), and
select the top `min(top_k_per_path, len(schemas))` indices. -/
def pathIndices (env : Env) (vs : VSState) (kpp : Nat) (d : String) :
    PyResult (List Nat) := do
  let vecs ← get_embeddings env [d]
  let q ← listAt vecs 0
  match vs.schema_embeddings with
  | none => PyResult.exn "TypeError: cosine_similarity received None instead of an array"
  | some em =>
    pure (topIndices (em.map (env.cosine q)) (min kpp vs.schemas.length))

/-- The schemas one dimension retrieves, before deduplication. -/
def pathTopK (env : Env) (vs : VSState) (kpp : Nat) (d : String) :
    PyResult (List TableSchema) := do
  let idxs ← pathIndices env vs kpp d
  pyMapIndex vs.schemas idxs

/-- Inner accumulation loop of `multi_path_retrieve_schemas`: append each
indexed schema whose table name has not been seen yet. -/
def addIndices (schemas : List TableSchema) :
    List Nat → List TableSchema → List String → PyResult (List TableSchema × List String)
  | [], acc, seen => .ok (acc, seen)
  | i :: is, acc, seen => do
    let s ← listAt schemas i
    if s.name ∈ seen then addIndices schemas is acc seen
    else addIndices schemas is (acc ++ [s]) (seen ++ [s.name])

/-- Outer loop of `multi_path_retrieve_schemas` over the dimension list,
threading the accumulated schemas and the seen-name set. -/
def multiPathLoop (env : Env) (vs : VSState) (kpp : Nat) :
    List String → List TableSchema → List String → PyResult (List TableSchema)
  | [], acc, _seen => .ok acc
  | d :: ds, acc, seen => do
    let idxs ← pathIndices env vs kpp d
    let (acc2, seen2) ← addIndices vs.schemas idxs acc seen
    multiPathLoop env vs kpp ds acc2 seen2

/-- `VectorStore.multi_path_retrieve_schemas`: ask the model for query
dimensions, then run one unguarded retrieval pass per dimension,
deduplicating by table name across passes. -/
def multi_path_retrieve_schemas (env : Env) (vs : VSState) (question : String)
    (kpp : Nat) : PyResult (List TableSchema) :=
  let dimensionsText := call_llm env (mkAnalysisPrompt question) "qwen-plus"
  multiPathLoop env vs kpp (parseDimensions dimensionsText) [] []

/-- Key collection of `_create_data_summary`: entries of one record are
scanned in order and a column type is recorded at its first occurrence. -/
def addRecordTypes : List (String × String) → Row → List (String × String)
  | m, [] => m
  | m, (k, v) :: rest =>
    addRecordTypes (if (m.lookup k).isSome then m else m ++ [(k, pyTypeName v)]) rest

/-- The `column_types` map of `_create_data_summary`: for every column, the
runtime type name of its first observed value across the row sequence. -/
def columnTypes (data : List Row) : List (String × String) :=
  data.foldl addRecordTypes []

/-- The `all_columns` set of `_create_data_summary`, as the first-seen-order
deduplicated union of the rows' keys. -/
def collectColumns (data : List Row) : List String :=
  (data.flatMap fun r => r.map Prod.fst).foldl
    (fun acc k => if k ∈ acc then acc else acc ++ [k]) []

/-- The `sorted(list(all_columns))` of `_create_data_summary`. -/
def sortedColumns (data : List Row) : List String :=
  List.insertionSort strLeProp (collectColumns data)

/-- Rendering of one `columns_info` entry by `json.dumps(..., indent=2)`. -/
def renderColEntry (kv : String × String) : String :=
  "    \"" ++ jsonEscape kv.1 ++ "\": \"" ++ jsonEscape kv.2 ++ "\""

/-- Rendering of the `columns_info` object by `json.dumps(..., indent=2)`. -/
def renderColsInfo (cols : List (String × String)) : String :=
  match cols with
  | [] => "\x7b\x7d"
  | _ => "\x7b\n" ++ pyJoin ",\n" (cols.map renderColEntry) ++ "\n  \x7d"

/-- The serialized structural summary: `json.dumps(summary_data, indent=2,
ensure_ascii=False)` of the dictionary built in `_create_data_summary`. -/
def renderSummary (totalRecords : Nat) (cols : List (String × String)) : String :=
  "\x7b\n  \"total_records\": " ++ toString totalRecords
    ++ ",\n  \"columns_info\": " ++ renderColsInfo cols
    ++ ",\n  \"data_structure\": \"教学数据分析结果\",\n  \"privacy_note\": \"实际数据值已省略\"\n\x7d"

/-- The per-column `columns_info` entries, in sorted column order, each
column mapped to `column_types.get(col, "unknown")`. -/
def columnsInfo (data : List Row) : List (String × String) :=
  (sortedColumns data).map fun c => (c, ((columnTypes data).lookup c).getD "unknown")

/-- `NL2SQLPipeline._create_data_summary`: the fixed no-data string for an
empty row sequence, otherwise the serialized structural summary. -/
def create_data_summary (data : List Row) : String :=
  match data with
  | [] => "没有可用数据。"
  | _ => renderSummary data.length (columnsInfo data)

/-- The `performance` sub-dictionary of the response. -/
structure Performance where
  retrieval_time : Int
  sql_generation_time : Int
  execution_time : Int
  answer_generation_time : Int
  total_time : Int
deriving DecidableEq

/-- The response dictionary returned by `NL2SQLPipeline.ask`.  The two keys
that only some paths emit are modelled with an outer `Option`: `none` means
the key is absent from the returned dictionary. -/
structure Response where
  question : String
  relevant_schemas : List String
  sql_query : Option String
  query_success : Bool
  /-- Outer `none`: the `query_error` key is absent (rejection path). -/
  query_error : Option (Option String)
  data : List Row
  answer : String
  /-- Outer `none`: the `schema_insufficient` key is absent. -/
  schema_insufficient : Option Bool
  performance : Performance
deriving DecidableEq

/-- The schema context block joined from the retrieved schemas in `ask`. -/
def mkSchemaContext (schemas : List TableSchema) : String :=
  pyJoin "\n\n" (schemas.map fun s => "--- Table: " ++ s.name ++ " ---\n" ++ s.ddl)

/-- `NL2SQLPipeline.ask`: the full pipeline over one question.  `clock n` is
the value of the n-th `time.time()` call, numbered in evaluation order. -/
def ask (env : Env) (st : PipelineState) (clock : Nat → Int) (question : String) :
    PyResult Response := do
  let startTime := clock 0
  let retrievalStart := clock 1
  let relevantSchemas ← multi_path_retrieve_schemas env st.vs question 2
  let retrievalTime := clock 2 - retrievalStart
  let schemaContext := mkSchemaContext relevantSchemas
  let sqlStart := clock 3
  let sqlQuery := generate_sql env (mkSqlPrompt schemaContext question)
  let sqlTime := clock 4 - sqlStart
  if pyStartsWith (pyStrip sqlQuery) "SCHEMA_INSUFFICIENT:" then
    let totalTime := clock 5 - startTime
    pure { question := question
           relevant_schemas := relevantSchemas.map TableSchema.name
           sql_query := none
           data := []
           answer := "当前数据库结构无法满足查询需求。"
             ++ pyStrip (pyReplace sqlQuery "SCHEMA_INSUFFICIENT:" "")
           query_success := false
           query_error := none
           schema_insufficient := some true
           performance := { retrieval_time := retrievalTime
                            sql_generation_time := sqlTime
                            execution_time := 0
                            answer_generation_time := 0
                            total_time := totalTime } }
  else
    let execStart := clock 5
    let queryResult := (execute_sql env sqlQuery).1
    let execTime := clock 6 - execStart
    let answerStart := clock 7
    let answer :=
      if queryResult.success then
        if queryResult.data = [] then "查询成功但没有匹配的数据。"
        else
          generate_answer env
            (mkAnswerPrompt question sqlQuery (create_data_summary queryResult.data))
      else
        "查询执行出错: " ++ (match queryResult.error with
                             | some e => e
                             | none => "None")
    let answerTime := clock 8 - answerStart
    let totalTime := clock 9 - startTime
    pure { question := question
           relevant_schemas := relevantSchemas.map TableSchema.name
           sql_query := some queryResult.sql
           query_success := queryResult.success
           query_error := some queryResult.error
           data := queryResult.data
           answer := answer
           schema_insufficient := none
           performance := { retrieval_time := retrievalTime
                            sql_generation_time := sqlTime
                            execution_time := execTime
                            answer_generation_time := answerTime
                            total_time := totalTime } }

/-- `NL2SQLPipeline.__init__`: constructs the database manager, the vector
store client and the model provider (each re-raising its own failure), then
loads the schema catalog (whose errors are swallowed into an empty list) and
builds the embedding index. -/
def pipelineInit (env : Env) : PyResult PipelineState := do
  let _ ← env.dbInit
  let _ ← env.vsClientInit
  let _ ← env.llmInit
  let allSchemas := get_all_schemas env
  let vs ← (build_embeddings env { schemas := [], schema_embeddings := none } allSchemas).1
  pure { vs := vs }

/-- Indexing with a default, the total companion of `listAt` used to state
results of successful list indexing. -/
def schemaAt (schemas : List TableSchema) (i : Nat) : TableSchema :=
  (schemas.get? i).getD { name := "", ddl := "", description := "" }

/-- Specification-side deduplication by table name (spec §4.2
`multiPathTopK`): keep the first occurrence of each table name, dropping a
schema whose name is already in `seen` or appeared earlier. -/
def dedupByName (seen : List String) : List TableSchema → List TableSchema
  | [] => []
  | s :: rest =>
    if s.name ∈ seen then dedupByName seen rest
    else s :: dedupByName (seen ++ [s.name]) rest

/-- Specification-side first observed value of a column across a row
sequence: the value under key `k` in the first row that contains `k`. -/
def firstValue (k : String) : List Row → Option PyVal
  | [] => none
  | r :: rest =>
    match r.lookup k with
    | some v => some v
    | none => firstValue k rest

/-- Specification-side verbatim occurrence of one string inside another. -/
def occursIn (needle hay : String) : Prop :=
  ∃ a b, hay = a ++ needle ++ b

/-- Fixture: a first stored schema. -/
def schA : TableSchema :=
  { name := "students", ddl := "CREATE TABLE students (student_id integer);",
    description := "学生基本信息表" }

/-- Fixture: a second stored schema. -/
def schB : TableSchema :=
  { name := "study_detail", ddl := "CREATE TABLE study_detail (study_detail_id integer);",
    description := "学习明细表" }

/-- Fixture: a benign environment; the similarity kernel reads the first
coordinate of the stored vector, so stored vectors directly encode
similarity scores. -/
def baseEnv : Env :=
  { chatApi := fun _ _ => .ok "students"
    embedApi := fun ts => .ok (ts.map fun _ => [1])
    cosine := fun _ v => v.headD 0
    dbExec := fun _ => .rows []
    dbInit := .ok ()
    vsClientInit := .ok ()
    llmInit := .ok ()
    catalog := .ok [] }

/-- Fixture: built index over two schemas with distinct similarity scores
(5 for `schA`, 3 for `schB` under `baseEnv.cosine`). -/
def vsBuilt2 : VSState :=
  { schemas := [schA, schB], schema_embeddings := some [[5], [3]] }

/-- Fixture: built index over two schemas with tied similarity scores. -/
def vsTie2 : VSState :=
  { schemas := [schA, schB], schema_embeddings := some [[7], [7]] }

/-- Fixture: unbuilt index holding two schemas. -/
def vsUnbuilt : VSState :=
  { schemas := [schA, schB], schema_embeddings := none }

/-- Fixture: pipeline state with the built two-schema index. -/
def stBuilt : PipelineState := { vs := vsBuilt2 }

/-- Fixture: constant clock. -/
def clock0 : Nat → Int := fun _ => 0

/-- Fixture: environment whose chat-completion API always raises. -/
def envChatDown : Env :=
  { baseEnv with
    chatApi := fun _ _ => .exn "APIConnectionError"
    dbExec := fun _ => .err "syntax error at or near \"Error\"" }

/-- Fixture: environment whose model rejects SQL generation with the
insufficiency marker (the dimension-analysis call still succeeds). -/
def envReject : Env :=
  { baseEnv with
    chatApi := fun p _ =>
      if pyStartsWith p "\n分析" then .ok "students"
      else .ok "SCHEMA_INSUFFICIENT: 数据库中没有学生电话号码字段" }

/-- Fixture: environment whose schema-catalog metadata query raises. -/
def envCatalogDown : Env :=
  { baseEnv with catalog := .exn "connection refused" }

/-- Fixture: environment answering two retrieval dimensions. -/
def envTwoDims : Env :=
  { baseEnv with chatApi := fun _ _ => .ok "students\nstudy_detail" }

/-- Fixture: environment for write statements. -/
def envWrite : Env := { baseEnv with dbExec := fun _ => .writeAck }

/-- Fixture: environment whose database raises on execution. -/
def envDbErr : Env := { baseEnv with dbExec := fun _ => .err "relation does not exist" }

/-- Fixture: a result row with an integer score. -/
def rowScore : Row := [("score", PyVal.int 95)]

/-- Fixture: a row with the same shape as `rowScore` but a different value. -/
def rowScore2 : Row := [("score", PyVal.int 42)]

/-- Fixture: the response produced by `ask` under `baseEnv` on the zero-row
success path. -/
def respC3 : Response :=
  { question := "张三"
    relevant_schemas := ["students", "study_detail"]
    sql_query := some "students"
    query_success := true
    query_error := some none
    data := []
    answer := "查询成功但没有匹配的数据。"
    schema_insufficient := none
    performance := { retrieval_time := 0, sql_generation_time := 0, execution_time := 0,
                     answer_generation_time := 0, total_time := 0 } }

@[simp]
theorem PyResult.bind_ok (a : α) (f : α → PyResult β) : PyResult.bind (.ok a) f = f a := rfl

@[simp]
theorem PyResult.bind_exn (m : String) (f : α → PyResult β) :
    PyResult.bind (.exn m) f = .exn m := rfl

@[simp]
theorem PyResult.bind_eq (r : PyResult α) (f : α → PyResult β) :
    r >>= f = PyResult.bind r f := rfl

@[simp]
theorem PyResult.pure_eq (a : α) : (pure a : PyResult α) = .ok a := rfl

instance (sims : List ℚ) : IsTotal Nat (argsortRel sims) := by
  constructor
  intro a b
  rcases lt_trichotomy (sims.getD a 0) (sims.getD b 0) with h | h | h
  · exact Or.inl (Or.inl h)
  · rcases Nat.le_total a b with hab | hab
    · exact Or.inl (Or.inr ⟨h, hab⟩)
    · exact Or.inr (Or.inr ⟨h.symm, hab⟩)
  · exact Or.inr (Or.inl h)

instance (sims : List ℚ) : IsTrans Nat (argsortRel sims) := by
  constructor
  intro a b c hab hbc
  rcases hab with h1 | ⟨e1, le1⟩
  · rcases hbc with h2 | ⟨e2, _⟩
    · exact Or.inl (h1.trans h2)
    · exact Or.inl (e2 ▸ h1)
  · rcases hbc with h2 | ⟨e2, le2⟩
    · exact Or.inl (e1 ▸ h2)
    · exact Or.inr ⟨e1.trans e2, le1.trans le2⟩

theorem argsort_perm (sims : List ℚ) :
    List.Perm (argsort sims) (List.range sims.length) :=
  List.perm_insertionSort _ _

theorem length_argsort (sims : List ℚ) : (argsort sims).length = sims.length := by
  have h := (argsort_perm sims).length_eq
  simpa using h

theorem nodup_argsort (sims : List ℚ) : (argsort sims).Nodup :=
  ((argsort_perm sims).symm).nodup (List.nodup_range _)

theorem mem_argsort {sims : List ℚ} {i : Nat} (h : i ∈ argsort sims) : i < sims.length :=
  List.mem_range.mp ((argsort_perm sims).mem_iff.mp h)

theorem pairwise_argsort (sims : List ℚ) :
    (argsort sims).Pairwise (argsortRel sims) :=
  List.sorted_insertionSort _ _

theorem negSlice_sublist (l : List α) (k : Nat) : List.Sublist (negSlice l k) l := by
  unfold negSlice
  split
  · exact List.Sublist.refl l
  · exact List.drop_sublist _ _

theorem length_negSlice (l : List α) (k : Nat) (hk : k ≠ 0) (hkl : k ≤ l.length) :
    (negSlice l k).length = k := by
  unfold negSlice
  rw [if_neg hk, List.length_drop]
  omega

theorem mem_topIndices {sims : List ℚ} {k i : Nat} (h : i ∈ topIndices sims k) :
    i < sims.length := by
  unfold topIndices at h
  exact mem_argsort ((negSlice_sublist _ _).subset (List.mem_reverse.mp h))

theorem nodup_topIndices (sims : List ℚ) (k : Nat) : (topIndices sims k).Nodup := by
  unfold topIndices
  exact List.nodup_reverse.mpr ((nodup_argsort sims).sublist (negSlice_sublist _ _))

theorem length_topIndices (sims : List ℚ) (k : Nat) (hk : k ≠ 0) (hkl : k ≤ sims.length) :
    (topIndices sims k).length = k := by
  unfold topIndices
  have h1 : k ≤ (argsort sims).length := by rw [length_argsort]; exact hkl
  rw [List.length_reverse, length_negSlice _ _ hk h1]

theorem pairwise_topIndices (sims : List ℚ) (k : Nat) :
    (topIndices sims k).Pairwise (fun a b => argsortRel sims b a) := by
  unfold topIndices
  exact List.pairwise_reverse.mpr ((pairwise_argsort sims).sublist (negSlice_sublist _ _))

theorem listAt_ok (schemas : List TableSchema) (i : Nat) (h : i < schemas.length) :
    listAt schemas i = .ok (schemaAt schemas i) := by
  unfold listAt schemaAt
  rw [List.get?_eq_get h]
  rfl

theorem pyMapIndex_ok (schemas : List TableSchema) :
    ∀ idxs : List Nat, (∀ i ∈ idxs, i < schemas.length) →
      pyMapIndex schemas idxs = .ok (idxs.map (schemaAt schemas)) := by
  intro idxs
  induction idxs with
  | nil => intro _; rfl
  | cons i is ih =>
    intro h
    have hi : i < schemas.length := h i (List.mem_cons_self i is)
    have his : ∀ j ∈ is, j < schemas.length := fun j hj => h j (List.mem_cons_of_mem i hj)
    simp [pyMapIndex, listAt_ok schemas i hi, ih his]

theorem dedupByName_props :
    ∀ (l : List TableSchema) (seen : List String),
      ((dedupByName seen l).map TableSchema.name).Nodup ∧
      ∀ n ∈ (dedupByName seen l).map TableSchema.name, n ∉ seen := by
  intro l
  induction l with
  | nil => intro seen; exact ⟨List.nodup_nil, by simp [dedupByName]⟩
  | cons s rest ih =>
    intro seen
    by_cases hmem : s.name ∈ seen
    · simpa [dedupByName, hmem] using ih seen
    · have ih2 := ih (seen ++ [s.name])
      constructor
      · simp only [dedupByName, if_neg hmem, List.map_cons, List.nodup_cons]
        refine ⟨fun hc => ?_, ih2.1⟩
        have := ih2.2 _ hc
        simp at this
      · intro n hn
        simp only [dedupByName, if_neg hmem, List.map_cons, List.mem_cons] at hn
        rcases hn with rfl | hn
        · exact hmem
        · have := ih2.2 n hn
          intro hcon
          exact this (by simp [hcon])

theorem dedupByName_append :
    ∀ (xs : List TableSchema) (seen : List String) (ys : List TableSchema),
      dedupByName seen (xs ++ ys) =
        dedupByName seen xs
          ++ dedupByName (seen ++ (dedupByName seen xs).map TableSchema.name) ys := by
  intro xs
  induction xs with
  | nil => intro seen ys; simp [dedupByName]
  | cons s rest ih =>
    intro seen ys
    by_cases hmem : s.name ∈ seen
    · simp only [List.cons_append, dedupByName, if_pos hmem]
      exact ih seen ys
    · simp only [List.cons_append, dedupByName, if_neg hmem, List.map_cons, List.append_eq]
      rw [ih (seen ++ [s.name]) ys]
      simp [List.append_assoc]

theorem addIndices_eq (schemas : List TableSchema) :
    ∀ (idxs : List Nat) (acc : List TableSchema) (seen : List String),
      (∀ i ∈ idxs, i < schemas.length) →
      addIndices schemas idxs acc seen =
        .ok (acc ++ dedupByName seen (idxs.map (schemaAt schemas)),
             seen ++ (dedupByName seen (idxs.map (schemaAt schemas))).map TableSchema.name) := by
  intro idxs
  induction idxs with
  | nil => intro acc seen _; simp [addIndices, dedupByName]
  | cons i is ih =>
    intro acc seen h
    have hi : i < schemas.length := h i (List.mem_cons_self i is)
    have his : ∀ j ∈ is, j < schemas.length := fun j hj => h j (List.mem_cons_of_mem i hj)
    by_cases hmem : (schemaAt schemas i).name ∈ seen
    · simp only [addIndices, listAt_ok schemas i hi, PyResult.bind_eq, PyResult.bind_ok,
        if_pos hmem, List.map_cons, dedupByName, ih _ _ his]
    · simp only [addIndices, listAt_ok schemas i hi, PyResult.bind_eq, PyResult.bind_ok,
        if_neg hmem, List.map_cons, dedupByName, ih _ _ his]
      simp [List.append_assoc]

theorem get_embeddings_single (env : Env) (d : String) (v : List ℚ) (vr : List (List ℚ))
    (h : env.embedApi [d] = .ok (v :: vr)) :
    get_embeddings env [d] = .ok [v] := by
  simp [get_embeddings, getEmbeddingsAux, h]

theorem pathIndices_eq (env : Env) (vs : VSState) (kpp : Nat) (d : String)
    (em : List (List ℚ)) (v : List ℚ) (vr : List (List ℚ))
    (hem : vs.schema_embeddings = some em)
    (hv : env.embedApi [d] = .ok (v :: vr)) :
    pathIndices env vs kpp d =
      .ok (topIndices (em.map (env.cosine v)) (min kpp vs.schemas.length)) := by
  simp [pathIndices, get_embeddings_single env d v vr hv, listAt, hem]

theorem topIndices_bounds (em : List (List ℚ)) (f : List ℚ → ℚ) (k : Nat)
    (schemas : List TableSchema) (hlen : em.length ≤ schemas.length) :
    ∀ i ∈ topIndices (em.map f) k, i < schemas.length := by
  intro i hi
  have := mem_topIndices hi
  rw [List.length_map] at this
  omega

theorem pathTopK_eq (env : Env) (vs : VSState) (kpp : Nat) (d : String)
    (em : List (List ℚ)) (v : List ℚ) (vr : List (List ℚ))
    (hem : vs.schema_embeddings = some em)
    (hlen : em.length ≤ vs.schemas.length)
    (hv : env.embedApi [d] = .ok (v :: vr)) :
    pathTopK env vs kpp d =
      .ok ((topIndices (em.map (env.cosine v)) (min kpp vs.schemas.length)).map
            (schemaAt vs.schemas)) := by
  have hb := topIndices_bounds em (env.cosine v) (min kpp vs.schemas.length) vs.schemas hlen
  simp [pathTopK, pathIndices_eq env vs kpp d em v vr hem hv,
    pyMapIndex_ok vs.schemas _ hb]

theorem multiPathLoop_eq (env : Env) (vs : VSState) (kpp : Nat) (em : List (List ℚ))
    (hem : vs.schema_embeddings = some em) (hlen : em.length ≤ vs.schemas.length) :
    ∀ dims : List String, (∀ d ∈ dims, ∃ v vr, env.embedApi [d] = .ok (v :: vr)) →
      ∃ ls : List (List TableSchema),
        List.Forall₂ (fun d l => pathTopK env vs kpp d = .ok l) dims ls ∧
        ∀ (acc : List TableSchema) (seen : List String),
          multiPathLoop env vs kpp dims acc seen = .ok (acc ++ dedupByName seen ls.flatten) := by
  intro dims
  induction dims with
  | nil =>
    intro _
    exact ⟨[], List.Forall₂.nil, fun acc seen => by simp [multiPathLoop, dedupByName]⟩
  | cons d ds ih =>
    intro h
    obtain ⟨v, vr, hv⟩ := h d (List.mem_cons_self d ds)
    have his : ∀ x ∈ ds, ∃ v vr, env.embedApi [x] = .ok (v :: vr) :=
      fun x hx => h x (List.mem_cons_of_mem d hx)
    obtain ⟨ls, hfa, hloop⟩ := ih his
    have hb := topIndices_bounds em (env.cosine v) (min kpp vs.schemas.length) vs.schemas hlen
    refine ⟨(topIndices (em.map (env.cosine v)) (min kpp vs.schemas.length)).map
              (schemaAt vs.schemas) :: ls,
            List.Forall₂.cons (pathTopK_eq env vs kpp d em v vr hem hlen hv) hfa, ?_⟩
    intro acc seen
    simp only [multiPathLoop, pathIndices_eq env vs kpp d em v vr hem hv,
      PyResult.bind_eq, PyResult.bind_ok, addIndices_eq vs.schemas _ _ _ hb,
      hloop, List.flatten_cons]
    rw [dedupByName_append]
    simp [List.append_assoc]

theorem multi_path_eq (env : Env) (vs : VSState) (q : String) (kpp : Nat)
    (em : List (List ℚ)) (dims : List String)
    (hem : vs.schema_embeddings = some em) (hlen : em.length ≤ vs.schemas.length)
    (hdims : parseDimensions (call_llm env (mkAnalysisPrompt q) "qwen-plus") = dims)
    (hok : ∀ d ∈ dims, ∃ v vr, env.embedApi [d] = .ok (v :: vr)) :
    ∃ ls : List (List TableSchema),
      List.Forall₂ (fun d l => pathTopK env vs kpp d = .ok l) dims ls ∧
      multi_path_retrieve_schemas env vs q kpp = .ok (dedupByName [] ls.flatten) := by
  obtain ⟨ls, hfa, hloop⟩ := multiPathLoop_eq env vs kpp em hem hlen dims hok
  refine ⟨ls, hfa, ?_⟩
  unfold multi_path_retrieve_schemas
  simp only []
  rw [hdims, hloop [] []]
  simp

theorem retrieve_relevant_eq (env : Env) (schemas : List TableSchema) (em : List (List ℚ))
    (q : String) (topK : Nat) (v : List ℚ) (vr : List (List ℚ))
    (hq : env.embedApi [q] = .ok (v :: vr))
    (hlen : em.length ≤ schemas.length) (hne : schemas ≠ []) :
    retrieve_relevant_schemas env ⟨schemas, some em⟩ q topK =
      .ok ((topIndices (em.map (env.cosine v)) (min topK schemas.length)).map
            (schemaAt schemas)) := by
  cases schemas with
  | nil => exact absurd rfl hne
  | cons s ss =>
    have hb := topIndices_bounds em (env.cosine v) (min topK (s :: ss).length) (s :: ss)
      (by simpa using hlen)
    simp only [retrieve_relevant_schemas, get_embeddings_single env q v vr hq, listAt,
      List.get?, PyResult.bind_eq, PyResult.bind_ok]
    exact pyMapIndex_ok (s :: ss) _ hb

theorem getEmbeddingsAux_congr (env env' : Env) (h : env.embedApi = env'.embedApi) :
    ∀ ts, getEmbeddingsAux env ts = getEmbeddingsAux env' ts := by
  intro ts
  induction ts with
  | nil => rfl
  | cons t ts ih => simp only [getEmbeddingsAux, h, ih]

theorem pathIndices_congr (env env' : Env) (h1 : env.embedApi = env'.embedApi)
    (h2 : env.cosine = env'.cosine) (vs : VSState) (kpp : Nat) (d : String) :
    pathIndices env vs kpp d = pathIndices env' vs kpp d := by
  unfold pathIndices get_embeddings
  rw [getEmbeddingsAux_congr env env' h1, h2]

theorem multiPathLoop_congr (env env' : Env) (h1 : env.embedApi = env'.embedApi)
    (h2 : env.cosine = env'.cosine) (vs : VSState) (kpp : Nat) :
    ∀ (dims : List String) (acc : List TableSchema) (seen : List String),
      multiPathLoop env vs kpp dims acc seen = multiPathLoop env' vs kpp dims acc seen := by
  intro dims
  induction dims with
  | nil => intro acc seen; rfl
  | cons d ds ih =>
    intro acc seen
    unfold multiPathLoop
    rw [pathIndices_congr env env' h1 h2 vs kpp d]
    cases pathIndices env' vs kpp d with
    | exn m => rfl
    | ok idxs =>
      simp only [PyResult.bind_eq, PyResult.bind_ok]
      cases addIndices vs.schemas idxs acc seen with
      | exn m => rfl
      | ok p =>
        cases p with
        | mk a s => simpa using ih a s

theorem multi_path_congr (env env' : Env) (h0 : env.chatApi = env'.chatApi)
    (h1 : env.embedApi = env'.embedApi) (h2 : env.cosine = env'.cosine)
    (vs : VSState) (q : String) (kpp : Nat) :
    multi_path_retrieve_schemas env vs q kpp = multi_path_retrieve_schemas env' vs q kpp := by
  unfold multi_path_retrieve_schemas call_llm
  rw [h0]
  exact multiPathLoop_congr env env' h1 h2 vs kpp _ [] []

theorem map_schemaAt_names_nodup (schemas : List TableSchema)
    (hnames : (schemas.map TableSchema.name).Nodup)
    (idxs : List Nat) (hnd : idxs.Nodup) (hb : ∀ i ∈ idxs, i < schemas.length) :
    ((idxs.map (schemaAt schemas)).map TableSchema.name).Nodup := by
  rw [List.map_map]
  refine hnd.map_on ?_
  intro i hi j hj heq
  have hgi : (schemas.map TableSchema.name).get? i = some ((schemaAt schemas i).name) := by
    rw [List.get?_map, List.get?_eq_get (hb i hi)]
    simp [schemaAt, List.get?_eq_get (hb i hi), List.getElem?_eq_getElem (hb i hi)]
  have hgj : (schemas.map TableSchema.name).get? j = some ((schemaAt schemas j).name) := by
    rw [List.get?_map, List.get?_eq_get (hb j hj)]
    simp [schemaAt, List.get?_eq_get (hb j hj), List.getElem?_eq_getElem (hb j hj)]
  have hlen : i < (schemas.map TableSchema.name).length := by
    rw [List.length_map]; exact hb i hi
  apply List.get?_inj hlen hnames
  rw [hgi, hgj]
  simpa using heq

theorem mem_foldl_dedup :
    ∀ (l : List String) (acc : List String) (x : String),
      x ∈ l.foldl (fun acc k => if k ∈ acc then acc else acc ++ [k]) acc ↔
        x ∈ acc ∨ x ∈ l := by
  intro l
  induction l with
  | nil => intro acc x; simp
  | cons k l ih =>
    intro acc x
    simp only [List.foldl_cons]
    rw [ih]
    by_cases hk : k ∈ acc
    · rw [if_pos hk]
      simp only [List.mem_cons]
      constructor
      · rintro (h | h)
        · exact Or.inl h
        · exact Or.inr (Or.inr h)
      · rintro (h | rfl | h)
        · exact Or.inl h
        · exact Or.inl hk
        · exact Or.inr h
    · rw [if_neg hk]
      simp only [List.mem_append, List.mem_singleton, List.mem_cons]
      tauto

theorem mem_collectColumns (data : List Row) (k : String) :
    k ∈ collectColumns data ↔ ∃ r ∈ data, k ∈ r.map Prod.fst := by
  unfold collectColumns
  rw [mem_foldl_dedup]
  simp [List.mem_flatMap]

theorem mem_sortedColumns (data : List Row) (k : String) :
    k ∈ sortedColumns data ↔ k ∈ collectColumns data :=
  (List.perm_insertionSort _ _).mem_iff

theorem map_fst_pair (f : String → String) :
    ∀ cols : List String, ((cols.map fun c => (c, f c)).map Prod.fst) = cols := by
  intro cols
  induction cols with
  | nil => rfl
  | cons c cs ih => simp only [List.map_cons, ih]

theorem columnsInfo_keys (data : List Row) :
    (columnsInfo data).map Prod.fst = sortedColumns data :=
  map_fst_pair _ _

theorem lookup_append (xs ys : List (String × String)) (k : String) :
    (xs ++ ys).lookup k =
      match xs.lookup k with
      | some t => some t
      | none => ys.lookup k := by
  induction xs with
  | nil => simp [List.lookup]
  | cons p xs ih =>
    cases p with
    | mk a b =>
      by_cases h : k = a
      · subst h; simp [List.lookup]
      · have hf : (k == a) = false := by simpa using h
        simp only [List.cons_append, List.lookup, hf]
        exact ih

theorem addRecordTypes_lookup :
    ∀ (r : Row) (m : List (String × String)) (k : String),
      (addRecordTypes m r).lookup k =
        match m.lookup k with
        | some t => some t
        | none => (r.lookup k).map pyTypeName := by
  intro r
  induction r with
  | nil =>
    intro m k
    cases h : m.lookup k <;> simp [addRecordTypes, h]
  | cons e rest ih =>
    intro m k
    cases e with
    | mk k' v =>
      simp only [addRecordTypes]
      by_cases hk' : (m.lookup k').isSome
      · rw [if_pos hk', ih]
        by_cases hkk : k = k'
        · subst hkk
          obtain ⟨t, ht⟩ := Option.isSome_iff_exists.mp hk'
          simp [ht, List.lookup]
        · have hf : (k == k') = false := by simpa using hkk
          simp only [List.lookup, hf]
      · rw [if_neg hk', ih]
        have hmn : m.lookup k' = none := Option.not_isSome_iff_eq_none.mp hk'
        by_cases hkk : k = k'
        · subst hkk
          rw [lookup_append, hmn]
          simp [hmn, List.lookup]
        · have hf : (k == k') = false := by simpa using hkk
          rw [lookup_append]
          cases hm : m.lookup k
          · simp only [List.lookup, hf]
          · simp

theorem columnTypes_lookup_aux :
    ∀ (data : List Row) (m : List (String × String)) (k : String),
      (data.foldl addRecordTypes m).lookup k =
        match m.lookup k with
        | some t => some t
        | none => (firstValue k data).map pyTypeName := by
  intro data
  induction data with
  | nil =>
    intro m k
    cases h : m.lookup k <;> simp [firstValue, h]
  | cons r rest ih =>
    intro m k
    simp only [List.foldl_cons]
    rw [ih, addRecordTypes_lookup]
    cases hm : m.lookup k
    · cases hr : r.lookup k <;> simp [firstValue, hr]
    · simp

theorem columnTypes_lookup (data : List Row) (k : String) :
    (columnTypes data).lookup k = (firstValue k data).map pyTypeName := by
  unfold columnTypes
  rw [columnTypes_lookup_aux]
  simp [List.lookup]

theorem lookup_map_pair (f : String → String) :
    ∀ (cols : List String) (k : String), k ∈ cols →
      (cols.map fun c => (c, f c)).lookup k = some (f k) := by
  intro cols
  induction cols with
  | nil => intro k h; cases h
  | cons c cs ih =>
    intro k h
    by_cases hk : k = c
    · subst hk; simp [List.lookup]
    · rcases List.mem_cons.mp h with rfl | h2
      · exact absurd rfl hk
      · have hf : (k == c) = false := by simpa using hk
        simp only [List.map_cons, List.lookup, hf]
        exact ih k h2

theorem lookup_some_mem_keys :
    ∀ (r : Row) (k : String) (v : PyVal), r.lookup k = some v → k ∈ r.map Prod.fst := by
  intro r
  induction r with
  | nil => intro k v h; simp [List.lookup] at h
  | cons e rest ih =>
    intro k v h
    cases e with
    | mk a b =>
      by_cases hk : k = a
      · subst hk; simp
      · have hf : (k == a) = false := by simpa using hk
        simp only [List.lookup, hf] at h
        exact List.mem_cons_of_mem _ (ih k v h)

theorem firstValue_mem :
    ∀ (data : List Row) (k : String) (v : PyVal),
      firstValue k data = some v → ∃ r ∈ data, k ∈ r.map Prod.fst := by
  intro data
  induction data with
  | nil => intro k v h; simp [firstValue] at h
  | cons r rest ih =>
    intro k v h
    unfold firstValue at h
    cases hr : r.lookup k with
    | some w =>
      exact ⟨r, List.mem_cons_self r rest, lookup_some_mem_keys r k w hr⟩
    | none =>
      rw [hr] at h
      obtain ⟨r2, hr2, hk2⟩ := ih k v h
      exact ⟨r2, List.mem_cons_of_mem r hr2, hk2⟩

/-- C4: for every SQL string, `execute_sql` never raises (it is total on
every database outcome); an execution error yields a rolled-back failed
`QueryResult` carrying the backend message, a zero-row read yields success
with empty data, and a write acknowledgement yields success with empty data
and a committed transaction. -/
theorem c4_execute_sql_total (env : Env) (s : String) :
    ((execute_sql env s).1.sql = s) ∧
    (∀ m, env.dbExec s = .err m →
      execute_sql env s =
        ({ success := false, data := [], sql := s, error := some m }, .rolledBack)) ∧
    (∀ data, env.dbExec s = .rows data →
      execute_sql env s =
        ({ success := true, data := data, sql := s, error := none }, .committed)) ∧
    (env.dbExec s = .writeAck →
      execute_sql env s =
        ({ success := true, data := [], sql := s, error := none }, .committed)) ∧
    ((execute_sql env s).1.success = false ↔ ∃ m, env.dbExec s = .err m) := by
  rcases h : env.dbExec s with data | _ | m <;> simp [execute_sql, h]

/-- C4 witness: the three database outcomes evaluated concretely. -/
theorem c4_witness :
    execute_sql envDbErr "SELECT 1" =
      ({ success := false, data := [], sql := "SELECT 1",
         error := some "relation does not exist" }, .rolledBack) ∧
    execute_sql baseEnv "SELECT 1" =
      ({ success := true, data := [], sql := "SELECT 1", error := none }, .committed) ∧
    execute_sql envWrite "INSERT INTO students (grade) VALUES (7)" =
      ({ success := true, data := [], sql := "INSERT INTO students (grade) VALUES (7)",
         error := none }, .committed) :=
  ⟨(c4_execute_sql_total envDbErr "SELECT 1").2.1 _ rfl,
   (c4_execute_sql_total baseEnv "SELECT 1").2.2.1 [] rfl,
   (c4_execute_sql_total envWrite "INSERT INTO students (grade) VALUES (7)").2.2.2.1 rfl⟩

/-- C5 counterexample: a metadata-query error does not abort pipeline
construction; `pipelineInit` succeeds and yields a pipeline whose schema set
is empty, contrary to the claim that the error is surfaced as a fatal
initialization error. -/
theorem c5_counterexample :
    envCatalogDown.catalog = .exn "connection refused" ∧
    pipelineInit envCatalogDown =
      .ok { vs := { schemas := [], schema_embeddings := none } } :=
  ⟨rfl, rfl⟩

/-- C5 amended: a metadata-query error is caught inside `get_all_schemas`
and yields an empty schema list; pipeline initialization then continues and
constructs a pipeline with an empty schema set and an unbuilt index. -/
theorem c5_catalog_error_swallowed (env : Env) (e : String)
    (hcat : env.catalog = .exn e) :
    get_all_schemas env = [] ∧
    (env.dbInit = .ok () → env.vsClientInit = .ok () → env.llmInit = .ok () →
      pipelineInit env = .ok { vs := { schemas := [], schema_embeddings := none } }) := by
  have hg : get_all_schemas env = [] := by simp [get_all_schemas, hcat]
  refine ⟨hg, fun h1 h2 h3 => ?_⟩
  simp [pipelineInit, h1, h2, h3, hg, build_embeddings]

/-- C5 witness: the amended behaviour evaluated on the failing catalog. -/
theorem c5_witness :
    get_all_schemas envCatalogDown = [] ∧
    pipelineInit envCatalogDown =
      .ok { vs := { schemas := [], schema_embeddings := none } } :=
  ⟨(c5_catalog_error_swallowed envCatalogDown "connection refused" rfl).1,
   (c5_catalog_error_swallowed envCatalogDown "connection refused" rfl).2 rfl rfl rfl⟩

/-- C10: with an unbuilt embedding matrix and at least one parsed dimension
whose embedding call succeeds, `multi_path_retrieve_schemas` raises (the
similarity computation hits the absent matrix unguarded), while the guarded
`retrieve_relevant_schemas` returns the empty list for every question. -/
theorem c10_unbuilt_multi_path_raises (env : Env) (vs : VSState) (q : String) (kpp : Nat)
    (d : String) (rest : List String) (v : List ℚ) (vr : List (List ℚ))
    (hem : vs.schema_embeddings = none)
    (hdims : parseDimensions (call_llm env (mkAnalysisPrompt q) "qwen-plus") = d :: rest)
    (hd : env.embedApi [d] = .ok (v :: vr)) :
    (∃ msg, multi_path_retrieve_schemas env vs q kpp = .exn msg) ∧
    (∀ (q2 : String) (k : Nat), retrieve_relevant_schemas env vs q2 k = .ok []) := by
  constructor
  · refine ⟨"TypeError: cosine_similarity received None instead of an array", ?_⟩
    unfold multi_path_retrieve_schemas
    simp only []
    rw [hdims]
    simp [multiPathLoop, pathIndices, get_embeddings_single env d v vr hd, listAt, hem]
  · intro q2 k
    unfold retrieve_relevant_schemas
    rw [hem]

/-- C10 witness: the raising multi-path call and the guarded single-path
call evaluated on an unbuilt store. -/
theorem c10_witness :
    (∃ msg, multi_path_retrieve_schemas baseEnv vsUnbuilt "错题查询" 2 = .exn msg) ∧
    (∀ (q2 : String) (k : Nat), retrieve_relevant_schemas baseEnv vsUnbuilt q2 k = .ok []) :=
  c10_unbuilt_multi_path_raises baseEnv vsUnbuilt "错题查询" 2 "students" [] [1] []
    rfl (by decide) rfl

/-- C8 counterexample: embedding two schemas issues two embedding-service
calls, one per document, not one batch call carrying both documents. -/
theorem c8_counterexample :
    (build_embeddings baseEnv { schemas := [], schema_embeddings := none } [schA, schB]).2 =
      [[schemaDoc schA], [schemaDoc schB]] ∧
    (build_embeddings baseEnv { schemas := [], schema_embeddings := none } [schA, schB]).2 ≠
      [[schemaDoc schA, schemaDoc schB]] ∧
    (build_embeddings baseEnv { schemas := [], schema_embeddings := none } [schA, schB]).2.length
      = 2 := by
  refine ⟨by decide, by decide, by decide⟩

/-- C8 amended: `build_embeddings` concatenates name, description and DDL of
each schema into one document, issues one embedding-service call per
document (each call carrying that single document), and stores one vector
per schema aligned by index; an empty schema list is a non-fatal no-op that
leaves the index empty. -/
theorem c8_build_embeddings_per_document :
    (∀ (env : Env) (vs : VSState) (schemas : List TableSchema) (f : String → List ℚ),
      schemas ≠ [] →
      (∀ t, env.embedApi [t] = .ok [f t]) →
      build_embeddings env vs schemas =
        (.ok { schemas := schemas,
               schema_embeddings := some ((schemas.map schemaDoc).map f) },
         (schemas.map schemaDoc).map fun d => [d]) ∧
      ((schemas.map schemaDoc).map f).length = schemas.length) ∧
    (∀ (env : Env) (s0 : List TableSchema),
      build_embeddings env { schemas := s0, schema_embeddings := none } [] =
        (.ok { schemas := [], schema_embeddings := none }, [])) := by
  constructor
  · intro env vs schemas f hne hf
    have haux : ∀ texts : List String,
        getEmbeddingsAux env texts = (.ok (texts.map f), texts.map fun t => [t]) := by
      intro texts
      induction texts with
      | nil => rfl
      | cons t ts ih => simp [getEmbeddingsAux, hf t, ih]
    cases schemas with
    | nil => exact absurd rfl hne
    | cons s ss =>
      constructor
      · simp [build_embeddings, haux]
      · simp
  · intro env s0
    rfl

/-- C8 witness: the amended per-document behaviour evaluated on two
schemas and on the empty list. -/
theorem c8_witness :
    build_embeddings baseEnv { schemas := [], schema_embeddings := none } [schA, schB] =
      (.ok { schemas := [schA, schB],
             schema_embeddings := some (([schA, schB].map schemaDoc).map fun _ => [1]) },
       ([schA, schB].map schemaDoc).map fun d => [d]) ∧
    build_embeddings baseEnv { schemas := [schA], schema_embeddings := none } [] =
      (.ok { schemas := [], schema_embeddings := none }, []) :=
  ⟨(c8_build_embeddings_per_document.1 baseEnv { schemas := [], schema_embeddings := none }
      [schA, schB] (fun _ => [1]) (by decide) (fun t => rfl)).1,
   c8_build_embeddings_per_document.2 baseEnv [schA]⟩

/-- C1 counterexample: with a chat-completion API that always raises, `ask`
still returns a response object to its caller, so the failure neither
propagates nor aborts the request. -/
theorem c1_counterexample :
    envChatDown.chatApi "任意提示" "qwen-plus" = .exn "APIConnectionError" ∧
    (ask envChatDown stBuilt clock0 "张三的错题").isOk = true := by
  refine ⟨rfl, by decide⟩

/-- C1 amended: a chat-completion API failure is caught inside `_call_llm`
and replaced by the string `"Error: LLM call failed. <e>"`; the request
continues with that string as the model output, and (provided the embedding
service and the built index are healthy and the substituted error text does
not start with the insufficiency marker) the caller receives a normal
response object. -/
theorem c1_llm_failure_caught (env : Env) (st : PipelineState) (clock : Nat → Int)
    (q e : String) (qv : List ℚ) (em : List (List ℚ))
    (hchat : ∀ p m, env.chatApi p m = .exn e)
    (hembed : ∀ ts, env.embedApi ts = .ok (ts.map fun _ => qv))
    (hem : st.vs.schema_embeddings = some em)
    (hlen : em.length ≤ st.vs.schemas.length)
    (hmark : pyStartsWith
        (pyStrip (pyStrip (pyReplace (pyReplace ("Error: LLM call failed. " ++ e)
          "```sql" "") "```" "")))
        "SCHEMA_INSUFFICIENT:" = false) :
    (∀ p m, call_llm env p m = "Error: LLM call failed. " ++ e) ∧
    ∃ resp, ask env st clock q = .ok resp ∧ resp.schema_insufficient = none ∧
      resp.question = q := by
  have hcall : ∀ p m, call_llm env p m = "Error: LLM call failed. " ++ e := by
    intro p m
    simp [call_llm, hchat p m]
  refine ⟨hcall, ?_⟩
  obtain ⟨ls, hfa, hmp⟩ := multi_path_eq env st.vs q 2 em
    (parseDimensions (call_llm env (mkAnalysisPrompt q) "qwen-plus")) hem hlen rfl
    (fun d _ => ⟨qv, [], hembed [d]⟩)
  have hsql : ∀ p, generate_sql env p =
      pyStrip (pyReplace (pyReplace ("Error: LLM call failed. " ++ e) "```sql" "") "```" "") := by
    intro p
    simp [generate_sql, hcall]
  unfold ask
  simp only []
  rw [hmp]
  simp only [PyResult.bind_eq, PyResult.bind_ok]
  rw [hsql, hmark]
  simp only [Bool.false_eq_true, if_false]
  exact ⟨_, rfl, rfl, rfl⟩

/-- C1 amended witness: the caught failure evaluated concretely. -/
theorem c1_witness :
    (∀ p m, call_llm envChatDown p m = "Error: LLM call failed. " ++ "APIConnectionError") ∧
    ∃ resp, ask envChatDown stBuilt clock0 "张三的错题分析" = .ok resp ∧
      resp.schema_insufficient = none ∧ resp.question = "张三的错题分析" :=
  c1_llm_failure_caught envChatDown stBuilt clock0 "张三的错题分析" "APIConnectionError"
    [1] [[5], [3]] (fun _ _ => rfl) (fun _ => rfl) rfl (by decide) (by decide)

/-- C2: when the generated SQL (trimmed) starts with `SCHEMA_INSUFFICIENT:`,
`ask` short-circuits: the response has a null `sql_query`, empty data,
`query_success = false`, `schema_insufficient = true`, an answer derived
from the reason text after the marker, zero-filled execution and
answer-generation times — and the whole response is independent of the
database oracle, so `execute_sql` is never consulted. -/
theorem c2_schema_insufficient_short_circuit (env : Env) (st : PipelineState)
    (clock : Nat → Int) (q : String) (rs : List TableSchema)
    (hmp : multi_path_retrieve_schemas env st.vs q 2 = .ok rs)
    (hmark : pyStartsWith
        (pyStrip (generate_sql env (mkSqlPrompt (mkSchemaContext rs) q)))
        "SCHEMA_INSUFFICIENT:" = true) :
    ∃ resp, ask env st clock q = .ok resp ∧
      resp.sql_query = none ∧
      resp.data = [] ∧
      resp.query_success = false ∧
      resp.schema_insufficient = some true ∧
      resp.query_error = none ∧
      resp.answer = "当前数据库结构无法满足查询需求。"
        ++ pyStrip (pyReplace (generate_sql env (mkSqlPrompt (mkSchemaContext rs) q))
              "SCHEMA_INSUFFICIENT:" "") ∧
      resp.performance.execution_time = 0 ∧
      resp.performance.answer_generation_time = 0 ∧
      (∀ dbe, ask { env with dbExec := dbe } st clock q = ask env st clock q) := by
  have main : ∀ env2 : Env, env2.chatApi = env.chatApi → env2.embedApi = env.embedApi →
      env2.cosine = env.cosine →
      ask env2 st clock q = .ok
        { question := q
          relevant_schemas := rs.map TableSchema.name
          sql_query := none
          data := []
          answer := "当前数据库结构无法满足查询需求。"
            ++ pyStrip (pyReplace (generate_sql env (mkSqlPrompt (mkSchemaContext rs) q))
                  "SCHEMA_INSUFFICIENT:" "")
          query_success := false
          query_error := none
          schema_insufficient := some true
          performance := { retrieval_time := clock 2 - clock 1
                           sql_generation_time := clock 4 - clock 3
                           execution_time := 0
                           answer_generation_time := 0
                           total_time := clock 5 - clock 0 } } := by
    intro env2 hc he hcos
    have hmp2 : multi_path_retrieve_schemas env2 st.vs q 2 = .ok rs := by
      rw [multi_path_congr env2 env hc he hcos st.vs q 2]
      exact hmp
    have hsql2 : generate_sql env2 (mkSqlPrompt (mkSchemaContext rs) q) =
        generate_sql env (mkSqlPrompt (mkSchemaContext rs) q) := by
      simp [generate_sql, call_llm, hc]
    unfold ask
    simp only []
    rw [hmp2]
    simp only [PyResult.bind_eq, PyResult.bind_ok]
    rw [hsql2, hmark]
    simp only [if_true]
    rfl
  refine ⟨_, main env rfl rfl rfl, rfl, rfl, rfl, rfl, rfl, rfl, rfl, rfl, ?_⟩
  intro dbe
  rw [main { env with dbExec := dbe } rfl rfl rfl, main env rfl rfl rfl]

/-- C2 witness: the short-circuit evaluated on a model that rejects with the
marker. -/
theorem c2_witness :
    ∃ resp, ask envReject stBuilt clock0 "学生的电话号码" = .ok resp ∧
      resp.sql_query = none ∧
      resp.data = [] ∧
      resp.query_success = false ∧
      resp.schema_insufficient = some true ∧
      resp.query_error = none ∧
      resp.answer = "当前数据库结构无法满足查询需求。"
        ++ pyStrip (pyReplace
              (generate_sql envReject (mkSqlPrompt (mkSchemaContext [schA, schB]) "学生的电话号码"))
              "SCHEMA_INSUFFICIENT:" "") ∧
      resp.performance.execution_time = 0 ∧
      resp.performance.answer_generation_time = 0 ∧
      (∀ dbe, ask { envReject with dbExec := dbe } stBuilt clock0 "学生的电话号码" =
        ask envReject stBuilt clock0 "学生的电话号码") :=
  c2_schema_insufficient_short_circuit envReject stBuilt clock0 "学生的电话号码"
    [schA, schB] (by decide) (by decide)

/-- C3 amended: every normal return of `ask` carries all response keys
except that the rejection path omits `query_error`; `schema_insufficient`
appears exactly on the rejection path, where the execution and
answer-generation times are zero-filled. -/
theorem c3_response_shape (env : Env) (st : PipelineState) (clock : Nat → Int)
    (q : String) (resp : Response)
    (h : ask env st clock q = .ok resp) :
    resp.question = q ∧
    ((resp.schema_insufficient = none ∧ ∃ er, resp.query_error = some er) ∨
     (resp.schema_insufficient = some true ∧ resp.query_error = none ∧
      resp.sql_query = none ∧ resp.data = [] ∧ resp.query_success = false ∧
      resp.performance.execution_time = 0 ∧
      resp.performance.answer_generation_time = 0)) := by
  unfold ask at h
  simp only [] at h
  cases hmp : multi_path_retrieve_schemas env st.vs q 2 with
  | exn m =>
    rw [hmp] at h
    simp at h
  | ok rs =>
    rw [hmp] at h
    simp only [PyResult.bind_eq, PyResult.bind_ok] at h
    split at h
    · simp only [PyResult.pure_eq, PyResult.ok.injEq] at h
      subst h
      exact ⟨rfl, Or.inr ⟨rfl, rfl, rfl, rfl, rfl, rfl, rfl⟩⟩
    · simp only [PyResult.pure_eq, PyResult.ok.injEq] at h
      subst h
      exact ⟨rfl, Or.inl ⟨rfl, ⟨_, rfl⟩⟩⟩

/-- C3 counterexample: on the rejection path the returned mapping has no
`query_error` key (outer `none`), refuting that every terminal outcome
carries all eight keys. -/
theorem c3_counterexample :
    (ask envReject stBuilt clock0 "学生的电话号码").map
        (fun r => (r.query_error, r.query_success, r.schema_insufficient)) =
      .ok (none, false, some true) := by
  decide

/-- C3 witness: the amended shape evaluated on a zero-row success run. -/
theorem c3_witness :
    respC3.question = "张三" ∧
    ((respC3.schema_insufficient = none ∧ ∃ er, respC3.query_error = some er) ∨
     (respC3.schema_insufficient = some true ∧ respC3.query_error = none ∧
      respC3.sql_query = none ∧ respC3.data = [] ∧ respC3.query_success = false ∧
      respC3.performance.execution_time = 0 ∧
      respC3.performance.answer_generation_time = 0)) :=
  c3_response_shape baseEnv stBuilt clock0 "张三" respC3 (by decide)

/-- C6 counterexample: two stored schemas with tied similarity scores are
returned in reverse original order (`schB` before `schA`), refuting that
ties are broken by original schema order. -/
theorem c6_counterexample :
    vsTie2.schemas = [schA, schB] ∧
    ((vsTie2.schema_embeddings.getD []).map (baseEnv.cosine [1]) = [7, 7]) ∧
    retrieve_relevant_schemas baseEnv vsTie2 "任意问题" 2 = .ok [schB, schA] ∧
    schB ≠ schA := by
  refine ⟨rfl, by decide, by decide, by decide⟩

/-- C6 amended: an unbuilt index returns the empty sequence; a built aligned
index with distinct table names and `k ≥ 1` returns exactly
`min(k, |schemas|)` schemas with no duplicate names, ordered by
non-increasing similarity with ties broken by REVERSE original schema order
(the ascending stable argsort is sliced from the end and reversed); for
`k = 0` the Python slice `[-0:]` would instead return every schema. -/
theorem c6_retrieval_ranking :
    (∀ (env : Env) (vs : VSState) (q : String) (k : Nat),
      vs.schema_embeddings = none → retrieve_relevant_schemas env vs q k = .ok []) ∧
    (∀ (env : Env) (schemas : List TableSchema) (em : List (List ℚ)) (q : String)
        (topK : Nat) (v : List ℚ) (vr : List (List ℚ)),
      env.embedApi [q] = .ok (v :: vr) →
      em.length = schemas.length →
      schemas ≠ [] →
      1 ≤ topK →
      (schemas.map TableSchema.name).Nodup →
      ∃ idxs : List Nat,
        retrieve_relevant_schemas env ⟨schemas, some em⟩ q topK =
          .ok (idxs.map (schemaAt schemas)) ∧
        idxs.length = min topK schemas.length ∧
        idxs.Nodup ∧
        (∀ i ∈ idxs, i < schemas.length) ∧
        idxs.Pairwise (fun a b =>
          (em.map (env.cosine v)).getD b 0 < (em.map (env.cosine v)).getD a 0 ∨
          ((em.map (env.cosine v)).getD b 0 = (em.map (env.cosine v)).getD a 0 ∧ b ≤ a)) ∧
        ((idxs.map (schemaAt schemas)).map TableSchema.name).Nodup) := by
  constructor
  · intro env vs q k hem
    unfold retrieve_relevant_schemas
    rw [hem]
  · intro env schemas em q topK v vr hq hlen hne hk hnames
    have hlen' : em.length ≤ schemas.length := le_of_eq hlen
    have hb := topIndices_bounds em (env.cosine v) (min topK schemas.length) schemas hlen'
    refine ⟨topIndices (em.map (env.cosine v)) (min topK schemas.length),
      retrieve_relevant_eq env schemas em q topK v vr hq hlen' hne, ?_, ?_, hb, ?_, ?_⟩
    · apply length_topIndices
      · have hpos : 0 < schemas.length := List.length_pos.mpr hne
        omega
      · rw [List.length_map, hlen]
        exact Nat.min_le_right _ _
    · exact nodup_topIndices _ _
    · have hp := pairwise_topIndices (em.map (env.cosine v)) (min topK schemas.length)
      simpa [argsortRel] using hp
    · exact map_schemaAt_names_nodup schemas hnames _ (nodup_topIndices _ _) hb

/-- C6 witness: both conjuncts evaluated concretely — the unbuilt guard on
`vsUnbuilt` and the ranking on a two-schema index with scores 5 and 3. -/
theorem c6_witness :
    retrieve_relevant_schemas baseEnv vsUnbuilt "问题" 3 = .ok [] ∧
    ∃ idxs : List Nat,
      retrieve_relevant_schemas baseEnv ⟨[schA, schB], some [[5], [3]]⟩ "问题" 2 =
        .ok (idxs.map (schemaAt [schA, schB])) ∧
      idxs.length = min 2 ([schA, schB] : List TableSchema).length ∧
      idxs.Nodup ∧
      (∀ i ∈ idxs, i < ([schA, schB] : List TableSchema).length) ∧
      idxs.Pairwise (fun a b =>
        (([[5], [3]] : List (List ℚ)).map (baseEnv.cosine [1])).getD b 0 <
          (([[5], [3]] : List (List ℚ)).map (baseEnv.cosine [1])).getD a 0 ∨
        ((([[5], [3]] : List (List ℚ)).map (baseEnv.cosine [1])).getD b 0 =
          (([[5], [3]] : List (List ℚ)).map (baseEnv.cosine [1])).getD a 0 ∧ b ≤ a)) ∧
      ((idxs.map (schemaAt [schA, schB])).map TableSchema.name).Nodup :=
  ⟨c6_retrieval_ranking.1 baseEnv vsUnbuilt "问题" 3 rfl,
   c6_retrieval_ranking.2 baseEnv [schA, schB] [[5], [3]] "问题" 2 [1] []
     rfl (by decide) (by decide) (by decide) (by decide)⟩

/-- C7: multi-path retrieval equals the first-seen-order deduplication (by
table name) of the concatenated per-dimension top-k results, and never
returns the same table name twice. -/
theorem c7_multi_path_dedup (env : Env) (vs : VSState) (q : String) (kpp : Nat)
    (em : List (List ℚ)) (dims : List String)
    (hem : vs.schema_embeddings = some em)
    (hlen : em.length ≤ vs.schemas.length)
    (hdims : parseDimensions (call_llm env (mkAnalysisPrompt q) "qwen-plus") = dims)
    (hok : ∀ d ∈ dims, ∃ v vr, env.embedApi [d] = .ok (v :: vr)) :
    ∃ ls : List (List TableSchema),
      List.Forall₂ (fun d l => pathTopK env vs kpp d = .ok l) dims ls ∧
      multi_path_retrieve_schemas env vs q kpp = .ok (dedupByName [] ls.flatten) ∧
      ((dedupByName [] ls.flatten).map TableSchema.name).Nodup := by
  obtain ⟨ls, hfa, hmp⟩ := multi_path_eq env vs q kpp em dims hem hlen hdims hok
  exact ⟨ls, hfa, hmp, (dedupByName_props ls.flatten []).1⟩

/-- C7 witness: two dimensions each retrieving both stored tables; the
merged result lists each table once. -/
theorem c7_witness :
    ∃ ls : List (List TableSchema),
      List.Forall₂ (fun d l => pathTopK envTwoDims vsBuilt2 2 d = .ok l)
        ["students", "study_detail"] ls ∧
      multi_path_retrieve_schemas envTwoDims vsBuilt2 "张三的错题" 2 =
        .ok (dedupByName [] ls.flatten) ∧
      ((dedupByName [] ls.flatten).map TableSchema.name).Nodup :=
  c7_multi_path_dedup envTwoDims vsBuilt2 "张三的错题" 2 [[5], [3]]
    ["students", "study_detail"] rfl (by decide) (by decide)
    (fun d _ => ⟨[1], [], rfl⟩)

/-- C9 counterexample: a cell value can appear verbatim in the serialized
summary — here the value of column `x` is the string `"x"`, which occurs
inside the summary (as the column name), refuting the universal claim that
no actual cell value is included in the serialized summary. -/
theorem c9_counterexample :
    occursIn (pyRender (PyVal.str "x")) (create_data_summary [[("x", PyVal.str "x")]]) ∧
    ("x", PyVal.str "x") ∈ ([[("x", PyVal.str "x")]] : List Row).flatten ∧
    ([[("x", PyVal.str "x")]] : List Row) ≠ [] := by
  refine ⟨⟨"\x7b\n  \"total_records\": 1,\n  \"columns_info\": \x7b\n    \"",
    "\": \"str\"\n  \x7d,\n  \"data_structure\": \"教学数据分析结果\",\n  \"privacy_note\": \"实际数据值已省略\"\n\x7d",
    by decide⟩, by decide, by decide⟩

/-- C9 amended: the summary of an empty row sequence is exactly the fixed
no-data string; for non-empty rows the `columns_info` keys are exactly the
union of the rows' column names, each mapped to the runtime type name of its
first observed value; and the serialized summary is a function of the record
count and that column-to-type map only, so no cell value flows into it
(although a value may coincide verbatim with a column name or type name). -/
theorem c9_summary_structure :
    (create_data_summary [] = "没有可用数据。") ∧
    (∀ (data : List Row) (k : String), data ≠ [] →
      (k ∈ (columnsInfo data).map Prod.fst ↔ ∃ r ∈ data, k ∈ r.map Prod.fst)) ∧
    (∀ (data : List Row) (k : String) (v : PyVal), firstValue k data = some v →
      (columnsInfo data).lookup k = some (pyTypeName v)) ∧
    (∀ d1 d2 : List Row, d1 ≠ [] → d2 ≠ [] → d1.length = d2.length →
      columnsInfo d1 = columnsInfo d2 →
      create_data_summary d1 = create_data_summary d2) := by
  refine ⟨rfl, ?_, ?_, ?_⟩
  · intro data k _
    rw [columnsInfo_keys, mem_sortedColumns, mem_collectColumns]
  · intro data k v hfv
    have hkmem : k ∈ sortedColumns data := by
      rw [mem_sortedColumns, mem_collectColumns]
      exact firstValue_mem data k v hfv
    unfold columnsInfo
    rw [lookup_map_pair _ _ _ hkmem, columnTypes_lookup, hfv]
    rfl
  · intro d1 d2 h1 h2 hlen hcols
    cases d1 with
    | nil => exact absurd rfl h1
    | cons r1 rest1 =>
      cases d2 with
      | nil => exact absurd rfl h2
      | cons r2 rest2 =>
        unfold create_data_summary
        rw [hlen, hcols]

/-- C9 witness: the amended structure evaluated concretely, including two
row sequences with different cell values but identical summaries. -/
theorem c9_witness :
    ("score" ∈ (columnsInfo [rowScore]).map Prod.fst ↔
      ∃ r ∈ [rowScore], "score" ∈ r.map Prod.fst) ∧
    (columnsInfo [rowScore]).lookup "score" = some (pyTypeName (PyVal.int 95)) ∧
    create_data_summary [rowScore] = create_data_summary [rowScore2] :=
  ⟨c9_summary_structure.2.1 [rowScore] "score" (by decide),
   c9_summary_structure.2.2.1 [rowScore] "score" (PyVal.int 95) (by decide),
   c9_summary_structure.2.2.2 [rowScore] [rowScore2] (by decide) (by decide)
     (by decide) (by decide)⟩
